import Mathlib

/-!
Verification of the request dispatcher of `server.py` (imolecule).

Shallow embedding of the core: `_worker_process` (the worker executor),
`ClientConnection.__init__` / `ClientConnection.on_message` (the per-client
dispatcher with its `multiprocessing.Pool`), and a multi-connection system
state used for the isolation (frame) property.

Modelling decisions, each tied to the source:
* A message (Python dict parsed from the wire) is an association list
  `List (String × Json)`; `dictGet` mirrors `msg[k]`, returning `none`
  where Python raises `KeyError`.
* The conversion library `format_converter` is external to the repository
  (the spec says its surface is "defined externally"), so the executor is
  parameterised by a registry `String → Option (params → Except String Json)`;
  `getattr` failure is the `none` case.
* Pool objects are modelled by their identity (a `Nat` drawn from an
  allocator), since the claims are about identity, creation, termination
  and replacement; `multiprocessing.Pool(processes=WORKERS)` yields a fresh
  identity.
* Timing is environmental: `elapsed` is how long the submitted work takes to
  resolve; `async.get(timeout=TIMEOUT)` raises `multiprocessing.TimeoutError`
  exactly when `timeout < elapsed`, otherwise it yields the result of the worker
  or re-raises the exception of the worker (caught by `except Exception`, giving
  `traceback.format_exc()`).
* `on_message` is a function from (message, timing, connection state,
  allocator) to a new state plus an ordered trace of observable events
  (pool terminated, pool created, response sent) and a flag recording an
  uncaught `KeyError` from `message["id"]` on line 69.
-/

namespace ImoleculeServer

/-- JSON-like values carried in request and response envelopes. -/
inductive Json where
  | null : Json
  | bool : Bool → Json
  | num : Int → Json
  | str : String → Json
  | arr : List Json → Json
  | obj : List (String × Json) → Json

/-- Python dict lookup `d[k]` on an association list: `none` models `KeyError`. -/
def dictGet (k : String) : List (String × Json) → Option Json
  | [] => none
  | (k', v) :: rest => if k' = k then some v else dictGet k rest

/-- The surface of the external `format_converter` module: each attribute name
either resolves to a callable taking keyword arguments (`**params`) or does
not exist (`getattr` raises `AttributeError`).  A call returns a value or
raises, modelled by `Except String Json` where the `String` is the exception
text. -/
def Registry : Type := String → Option (List (String × Json) → Except String Json)

/-- `_worker_process(msg)` (server.py lines 31-34):
`return getattr(format_converter, msg["method"])(**msg["params"])`.
Evaluation order follows Python: `msg["method"]` first (KeyError if absent),
then `getattr` (AttributeError on unknown name, TypeError on non-string),
then `msg["params"]` (KeyError if absent, TypeError if not a mapping),
then the call itself, whose own failures propagate. -/
def worker_process (fc : Registry) (msg : List (String × Json)) : Except String Json :=
  match dictGet "method" msg with
  | none => Except.error "KeyError: method"
  | some (Json.str name) =>
    match fc name with
    | none => Except.error ("AttributeError: module format_converter has no attribute " ++ name)
    | some op =>
      match dictGet "params" msg with
      | none => Except.error "KeyError: params"
      | some (Json.obj ps) => op ps
      | some _ => Except.error "TypeError: argument after ** must be a mapping"
  | some _ => Except.error "TypeError: attribute name must be string"

/-- Per-client dispatcher state: the identity of the `multiprocessing.Pool`
object currently held in `self.pool`. -/
structure Conn where
  pool : Nat

/-- The response envelope sent on line 69:
`self.send({"result": result, "error": error, "id": message["id"]})`.
The `error` field is the Python int `0` or `1` assigned on lines 57/62/67. -/
structure Response where
  result : Json
  error : Nat
  id : Json

/-- Observable side effects of handling one message, in program order. -/
inductive Event where
  | terminated (pool : Nat)
  | created (pool : Nat)
  | sent (resp : Response)

/-- Result of one `on_message` call: the new connection state, the advanced
pool-identity allocator, the ordered event trace, and whether an uncaught
`KeyError` escaped from `message["id"]` (line 69). -/
structure HandleResult where
  conn : Conn
  alloc : Nat
  events : List Event
  raisedKeyError : Bool

/-- The fixed timeout diagnostic of lines 59-61 (three adjacent string
literals, concatenated by Python). -/
def timeoutMessage : String :=
  "File format conversion timed out! This is due " ++
  "either to a large input file or a segmentation " ++
  "fault in the underlying open babel library."

/-- `traceback.format_exc()` (line 66): the traceback header followed by the
exception text.  Always a non-empty string. -/
def formatExc (e : String) : String :=
  "Traceback (most recent call last):\n" ++ e

/-- Line 69: build and send the response.  `message["id"]` is looked up
outside the try/except, so a missing `"id"` key raises an uncaught
`KeyError` and no response is sent; the state changes already made
(pool recycle) are kept. -/
def sendResponse (result : Json) (error : Nat) (c : Conn) (alloc : Nat)
    (evs : List Event) (msg : List (String × Json)) : HandleResult :=
  match dictGet "id" msg with
  | some idv => ⟨c, alloc, evs ++ [Event.sent ⟨result, error, idv⟩], false⟩
  | none => ⟨c, alloc, evs, true⟩

/-- `ClientConnection.on_message` (lines 49-69).  `timeout` is the configured
`TIMEOUT`; `elapsed` is how long the submitted work takes to resolve.
* In time, worker returned: `result = value, error = 0`, pool untouched.
* In time, worker raised: `except Exception` sets
  `result = traceback.format_exc(), error = 1`, pool untouched.
* Too long: `except multiprocessing.TimeoutError` sets the fixed message and
  `error = 1`, then `self.pool.terminate()` and
  `self.pool = multiprocessing.Pool(processes=WORKERS)` — old pool
  terminated and a fresh pool created, both before `self.send`. -/
def on_message (fc : Registry) (timeout elapsed : Nat)
    (msg : List (String × Json)) (c : Conn) (alloc : Nat) : HandleResult :=
  if elapsed ≤ timeout then
    match worker_process fc msg with
    | Except.ok v => sendResponse v 0 c alloc [] msg
    | Except.error ex => sendResponse (Json.str (formatExc ex)) 1 c alloc [] msg
  else
    sendResponse (Json.str timeoutMessage) 1 ⟨alloc⟩ (alloc + 1)
      [Event.terminated c.pool, Event.created alloc] msg

/-- The responses carried by an event trace, in order. -/
def responsesOf : List Event → List Response
  | [] => []
  | Event.sent r :: rest => r :: responsesOf rest
  | _ :: rest => responsesOf rest

/-- The whole server: one dispatcher per client connection, plus the global
supply of fresh pool identities. -/
structure Sys where
  alloc : Nat
  conns : List Conn

/-- `ClientConnection.__init__` (lines 45-47): a new connection constructs
its own `multiprocessing.Pool`. -/
def Sys.newConn (s : Sys) : Sys :=
  ⟨s.alloc + 1, s.conns ++ [⟨s.alloc⟩]⟩

/-- Result of delivering a message to one connection of the system. -/
structure SysHandleResult where
  sys : Sys
  events : List Event
  raisedKeyError : Bool

/-- Deliver a message to connection `i`: only the `on_message` of that
connection runs; the state of every other connection is untouched. -/
def Sys.handle (fc : Registry) (timeout elapsed : Nat)
    (msg : List (String × Json)) (i : Nat) (s : Sys) : SysHandleResult :=
  match s.conns[i]? with
  | none => ⟨s, [], false⟩
  | some c =>
    let r := on_message fc timeout elapsed msg c s.alloc
    ⟨⟨r.alloc, s.conns.set i r.conn⟩, r.events, r.raisedKeyError⟩

/-! Helper lemmas about `sendResponse`. -/

theorem sendResponse_conn (result : Json) (error : Nat) (c : Conn) (alloc : Nat)
    (evs : List Event) (msg : List (String × Json)) :
    (sendResponse result error c alloc evs msg).conn = c := by
  unfold sendResponse
  cases dictGet "id" msg <;> rfl

theorem sendResponse_of_id (result : Json) (error : Nat) (c : Conn) (alloc : Nat)
    (evs : List Event) (msg : List (String × Json)) (idv : Json)
    (hid : dictGet "id" msg = some idv) :
    sendResponse result error c alloc evs msg =
      ⟨c, alloc, evs ++ [Event.sent ⟨result, error, idv⟩], false⟩ := by
  unfold sendResponse
  rw [hid]

theorem sendResponse_of_no_id (result : Json) (error : Nat) (c : Conn) (alloc : Nat)
    (evs : List Event) (msg : List (String × Json))
    (hid : dictGet "id" msg = none) :
    sendResponse result error c alloc evs msg = ⟨c, alloc, evs, true⟩ := by
  unfold sendResponse
  rw [hid]

theorem append_ne_empty_of_left (a b : String) (ha : a.length ≠ 0) : a ++ b ≠ "" := by
  intro h
  have hlen := congrArg String.length h
  rw [String.length_append] at hlen
  simp at hlen
  exact ha hlen.1

theorem formatExc_ne_empty (e : String) : formatExc e ≠ "" :=
  append_ne_empty_of_left _ _ (by decide)

theorem timeoutMessage_ne_empty : timeoutMessage ≠ "" := by
  decide

/-! Case characterisations of `on_message`, one per arm of the try/except. -/

theorem on_message_ok (fc : Registry) (timeout elapsed : Nat)
    (msg : List (String × Json)) (c : Conn) (alloc : Nat) (v : Json)
    (ht : elapsed ≤ timeout) (hok : worker_process fc msg = Except.ok v) :
    on_message fc timeout elapsed msg c alloc = sendResponse v 0 c alloc [] msg := by
  unfold on_message
  rw [if_pos ht, hok]

theorem on_message_err (fc : Registry) (timeout elapsed : Nat)
    (msg : List (String × Json)) (c : Conn) (alloc : Nat) (ex : String)
    (ht : elapsed ≤ timeout) (herr : worker_process fc msg = Except.error ex) :
    on_message fc timeout elapsed msg c alloc =
      sendResponse (Json.str (formatExc ex)) 1 c alloc [] msg := by
  unfold on_message
  rw [if_pos ht, herr]

theorem on_message_timeout (fc : Registry) (timeout elapsed : Nat)
    (msg : List (String × Json)) (c : Conn) (alloc : Nat)
    (ht : ¬ elapsed ≤ timeout) :
    on_message fc timeout elapsed msg c alloc =
      sendResponse (Json.str timeoutMessage) 1 ⟨alloc⟩ (alloc + 1)
        [Event.terminated c.pool, Event.created alloc] msg := by
  unfold on_message
  rw [if_neg ht]

/-! The claims. -/

/-- Claim C1: for every well-formed request whose operation completes before the
configured timeout without raising, the response has `error` false (`0`) and
`result` equal to the return value of the operation, and the pool held by the
dispatcher afterwards is the same as before (no recycle), the only event
being the single sent response. -/
theorem completed_in_time_response
    (fc : Registry) (timeout elapsed : Nat) (msg : List (String × Json))
    (c : Conn) (alloc : Nat) (idv v : Json)
    (hid : dictGet "id" msg = some idv)
    (ht : elapsed ≤ timeout)
    (hok : worker_process fc msg = Except.ok v) :
    on_message fc timeout elapsed msg c alloc =
      ⟨c, alloc, [Event.sent ⟨v, 0, idv⟩], false⟩ := by
  unfold on_message
  rw [if_pos ht, hok]
  show sendResponse v 0 c alloc [] msg = _
  rw [sendResponse_of_id _ _ _ _ _ _ _ hid]
  rfl

/-- A demonstration registry: the single operation `"convert"` returning a
fixed string; used to instantiate hypothesis-bearing theorems. -/
def demoReg : Registry := fun name =>
  if name = "convert" then some (fun _ => Except.ok (Json.str "converted")) else none

/-- A demonstration well-formed request envelope. -/
def demoMsg : List (String × Json) :=
  [("id", Json.num 1), ("method", Json.str "convert"), ("params", Json.obj [])]

theorem completed_in_time_response_witness :
    on_message demoReg 5 0 demoMsg ⟨0⟩ 1 =
      ⟨⟨0⟩, 1, [Event.sent ⟨Json.str "converted", 0, Json.num 1⟩], false⟩ :=
  completed_in_time_response demoReg 5 0 demoMsg ⟨0⟩ 1 (Json.num 1)
    (Json.str "converted") rfl (by decide) rfl

/-- A demonstration registry whose single operation raises. -/
def demoRegFail : Registry := fun name =>
  if name = "convert" then some (fun _ => Except.error "ValueError: bad input") else none

/-- A demonstration request envelope lacking the `"id"` key. -/
def demoMsgNoId : List (String × Json) :=
  [("method", Json.str "convert"), ("params", Json.obj [])]

/-- Claim C2: for every request whose operation runs longer than the
configured timeout, the response has `error` true (`1`) and `result` equal to
the fixed timeout message; the pool identity after the call differs from
before, and the trace shows the old pool terminated and the new pool created
before the response is sent. -/
theorem timeout_recycles_and_responds
    (fc : Registry) (timeout elapsed : Nat) (msg : List (String × Json))
    (c : Conn) (alloc : Nat) (idv : Json)
    (hid : dictGet "id" msg = some idv)
    (ht : timeout < elapsed)
    (hp : c.pool < alloc) :
    on_message fc timeout elapsed msg c alloc =
      ⟨⟨alloc⟩, alloc + 1,
        [Event.terminated c.pool, Event.created alloc,
         Event.sent ⟨Json.str timeoutMessage, 1, idv⟩], false⟩ ∧
    alloc ≠ c.pool := by
  refine ⟨?_, (Nat.ne_of_lt hp).symm⟩
  rw [on_message_timeout fc timeout elapsed msg c alloc (Nat.not_le.mpr ht),
    sendResponse_of_id _ _ _ _ _ _ _ hid]
  rfl

theorem timeout_recycles_and_responds_witness :
    on_message demoReg 5 9 demoMsg ⟨0⟩ 1 =
      ⟨⟨1⟩, 2,
        [Event.terminated 0, Event.created 1,
         Event.sent ⟨Json.str timeoutMessage, 1, Json.num 1⟩], false⟩ ∧
    (1 : Nat) ≠ 0 :=
  timeout_recycles_and_responds demoReg 5 9 demoMsg ⟨0⟩ 1 (Json.num 1)
    rfl (by decide) (by decide)

/-- Claim C3: for every request whose operation raises inside the executor,
the response has `error` true (`1`) and `result` a non-empty diagnostic
string, and the pool of the dispatcher is unchanged (no recycle on a failed
outcome). -/
theorem failed_keeps_pool
    (fc : Registry) (timeout elapsed : Nat) (msg : List (String × Json))
    (c : Conn) (alloc : Nat) (idv : Json) (ex : String)
    (hid : dictGet "id" msg = some idv)
    (ht : elapsed ≤ timeout)
    (herr : worker_process fc msg = Except.error ex) :
    on_message fc timeout elapsed msg c alloc =
      ⟨c, alloc, [Event.sent ⟨Json.str (formatExc ex), 1, idv⟩], false⟩ ∧
    formatExc ex ≠ "" := by
  refine ⟨?_, formatExc_ne_empty ex⟩
  rw [on_message_err fc timeout elapsed msg c alloc ex ht herr,
    sendResponse_of_id _ _ _ _ _ _ _ hid]
  rfl

theorem failed_keeps_pool_witness :
    on_message demoRegFail 5 0 demoMsg ⟨0⟩ 1 =
      ⟨⟨0⟩, 1,
        [Event.sent ⟨Json.str (formatExc "ValueError: bad input"), 1, Json.num 1⟩],
        false⟩ ∧
    formatExc "ValueError: bad input" ≠ "" :=
  failed_keeps_pool demoRegFail 5 0 demoMsg ⟨0⟩ 1 (Json.num 1)
    "ValueError: bad input" rfl (by decide) rfl

/-- Claim C4: the pool of the dispatcher is replaced if and only if the awaited
submission exceeds its deadline: a failed outcome never changes the pool, a
timed-out outcome always does, and no other step of request handling mutates
it.  The hypothesis `c.pool < alloc` is the allocator invariant (the held
pool was drawn from the identity supply). -/
theorem recycle_iff_timeout
    (fc : Registry) (timeout elapsed : Nat) (msg : List (String × Json))
    (c : Conn) (alloc : Nat) (hp : c.pool < alloc) :
    (on_message fc timeout elapsed msg c alloc).conn.pool ≠ c.pool ↔
      timeout < elapsed := by
  by_cases ht : elapsed ≤ timeout
  · cases hw : worker_process fc msg with
    | ok v =>
      rw [on_message_ok fc timeout elapsed msg c alloc v ht hw, sendResponse_conn]
      simp [Nat.not_lt.mpr ht]
    | error ex =>
      rw [on_message_err fc timeout elapsed msg c alloc ex ht hw, sendResponse_conn]
      simp [Nat.not_lt.mpr ht]
  · rw [on_message_timeout fc timeout elapsed msg c alloc ht, sendResponse_conn]
    simp [Nat.not_le.mp ht]
    exact (Nat.ne_of_lt hp).symm

theorem recycle_iff_timeout_witness :
    ((on_message demoReg 5 9 demoMsg ⟨0⟩ 1).conn.pool ≠ Conn.pool ⟨0⟩ ↔ 5 < 9) ∧
    ((on_message demoReg 5 0 demoMsg ⟨0⟩ 1).conn.pool ≠ Conn.pool ⟨0⟩ ↔ 5 < 0) :=
  ⟨recycle_iff_timeout demoReg 5 9 demoMsg ⟨0⟩ 1 (by decide),
   recycle_iff_timeout demoReg 5 0 demoMsg ⟨0⟩ 1 (by decide)⟩

/-- Claim C5: for every request (completed, failed, or timed out) whose
envelope carries an `"id"`, every response the handler sends carries that
same `id` verbatim. -/
theorem id_roundtrip
    (fc : Registry) (timeout elapsed : Nat) (msg : List (String × Json))
    (c : Conn) (alloc : Nat) (idv : Json)
    (hid : dictGet "id" msg = some idv) :
    ∀ r, Event.sent r ∈ (on_message fc timeout elapsed msg c alloc).events →
      r.id = idv := by
  intro r hr
  by_cases ht : elapsed ≤ timeout
  · cases hw : worker_process fc msg with
    | ok v =>
      rw [on_message_ok fc timeout elapsed msg c alloc v ht hw,
        sendResponse_of_id _ _ _ _ _ _ _ hid] at hr
      simp only [List.nil_append, List.mem_singleton] at hr
      injection hr with hr2
      rw [hr2]
    | error ex =>
      rw [on_message_err fc timeout elapsed msg c alloc ex ht hw,
        sendResponse_of_id _ _ _ _ _ _ _ hid] at hr
      simp only [List.nil_append, List.mem_singleton] at hr
      injection hr with hr2
      rw [hr2]
  · rw [on_message_timeout fc timeout elapsed msg c alloc ht,
      sendResponse_of_id _ _ _ _ _ _ _ hid] at hr
    simp only [List.cons_append, List.nil_append, List.mem_cons,
      List.mem_singleton] at hr
    rcases hr with h | h | h | h
    · exact Event.noConfusion h
    · exact Event.noConfusion h
    · injection h with h2
      rw [h2]
    · exact absurd h (List.not_mem_nil _)

theorem id_roundtrip_witness :
    Response.id ⟨Json.str "converted", 0, Json.num 1⟩ = Json.num 1 :=
  id_roundtrip demoReg 5 0 demoMsg ⟨0⟩ 1 (Json.num 1) rfl
    ⟨Json.str "converted", 0, Json.num 1⟩ (List.Mem.head _)

/-- Claim C6, counterexample to the claim as stated: an incoming envelope
with no `"id"` key is handled with an uncaught `KeyError` — the failure is
not converted into a response, and the caller receives no response at all
for that request. -/
theorem every_request_answered_counterexample :
    (on_message demoReg 5 0 demoMsgNoId ⟨0⟩ 1).raisedKeyError = true ∧
    responsesOf (on_message demoReg 5 0 demoMsgNoId ⟨0⟩ 1).events = [] :=
  ⟨rfl, rfl⟩

/-- Claim C6, amended: for every incoming request envelope that carries an
`"id"` key, handling never raises out of the handler: every failure during
execution is converted into a response, the caller receives exactly one
response, tagged with the original `id`, and on failure (`error = 1`) the
`result` is a non-empty human-readable diagnostic string. -/
theorem every_request_with_id_answered
    (fc : Registry) (timeout elapsed : Nat) (msg : List (String × Json))
    (c : Conn) (alloc : Nat) (idv : Json)
    (hid : dictGet "id" msg = some idv) :
    (on_message fc timeout elapsed msg c alloc).raisedKeyError = false ∧
    ∃ resp, responsesOf (on_message fc timeout elapsed msg c alloc).events = [resp] ∧
      resp.id = idv ∧
      (resp.error = 1 → ∃ s, resp.result = Json.str s ∧ s ≠ "") := by
  by_cases ht : elapsed ≤ timeout
  · cases hw : worker_process fc msg with
    | ok v =>
      rw [on_message_ok fc timeout elapsed msg c alloc v ht hw,
        sendResponse_of_id _ _ _ _ _ _ _ hid]
      exact ⟨rfl, ⟨v, 0, idv⟩, rfl, rfl, fun h => absurd h (by simp)⟩
    | error ex =>
      rw [on_message_err fc timeout elapsed msg c alloc ex ht hw,
        sendResponse_of_id _ _ _ _ _ _ _ hid]
      exact ⟨rfl, ⟨Json.str (formatExc ex), 1, idv⟩, rfl, rfl,
        fun _ => ⟨formatExc ex, rfl, formatExc_ne_empty ex⟩⟩
  · rw [on_message_timeout fc timeout elapsed msg c alloc ht,
      sendResponse_of_id _ _ _ _ _ _ _ hid]
    exact ⟨rfl, ⟨Json.str timeoutMessage, 1, idv⟩, rfl, rfl,
      fun _ => ⟨timeoutMessage, rfl, timeoutMessage_ne_empty⟩⟩

theorem every_request_with_id_answered_witness :
    (on_message demoRegFail 5 0 demoMsg ⟨0⟩ 1).raisedKeyError = false ∧
    ∃ resp, responsesOf (on_message demoRegFail 5 0 demoMsg ⟨0⟩ 1).events = [resp] ∧
      resp.id = Json.num 1 ∧
      (resp.error = 1 → ∃ s, resp.result = Json.str s ∧ s ≠ "") :=
  every_request_with_id_answered demoRegFail 5 0 demoMsg ⟨0⟩ 1 (Json.num 1) rfl

/-- Claim C7: in every response the `error` field is the flag realised by the
ints `0`/`1` (lines 57/62/67), set to `1` exactly when the operation failed
or timed out, and it selects which result form is populated: `error = 0`
means `result` is the return value of the operation, `error = 1` means `result`
is a diagnostic string. -/
theorem error_flag_selects_result
    (fc : Registry) (timeout elapsed : Nat) (msg : List (String × Json))
    (c : Conn) (alloc : Nat) (idv : Json)
    (hid : dictGet "id" msg = some idv) :
    ∃ resp, responsesOf (on_message fc timeout elapsed msg c alloc).events = [resp] ∧
      (resp.error = 0 ∨ resp.error = 1) ∧
      (resp.error = 1 ↔
        (timeout < elapsed ∨ ∃ ex, worker_process fc msg = Except.error ex)) ∧
      (resp.error = 0 → ∃ v, worker_process fc msg = Except.ok v ∧ resp.result = v) ∧
      (resp.error = 1 → ∃ s, resp.result = Json.str s) := by
  by_cases ht : elapsed ≤ timeout
  · cases hw : worker_process fc msg with
    | ok v =>
      rw [on_message_ok fc timeout elapsed msg c alloc v ht hw,
        sendResponse_of_id _ _ _ _ _ _ _ hid]
      refine ⟨⟨v, 0, idv⟩, rfl, Or.inl rfl, ?_, fun _ => ⟨v, rfl, rfl⟩,
        fun h => absurd h (by simp)⟩
      constructor
      · intro h
        exact absurd h (by simp)
      · intro h
        rcases h with h | h
        · exact absurd h (Nat.not_lt.mpr ht)
        · rcases h with ⟨ex, hex⟩
          exact Except.noConfusion hex
    | error ex =>
      rw [on_message_err fc timeout elapsed msg c alloc ex ht hw,
        sendResponse_of_id _ _ _ _ _ _ _ hid]
      refine ⟨⟨Json.str (formatExc ex), 1, idv⟩, rfl, Or.inr rfl,
        ⟨fun _ => Or.inr ⟨ex, rfl⟩, fun _ => rfl⟩, ?_, fun _ => ⟨formatExc ex, rfl⟩⟩
      intro h
      exact absurd h (by simp)
  · rw [on_message_timeout fc timeout elapsed msg c alloc ht,
      sendResponse_of_id _ _ _ _ _ _ _ hid]
    refine ⟨⟨Json.str timeoutMessage, 1, idv⟩, rfl, Or.inr rfl,
      ⟨fun _ => Or.inl (Nat.not_le.mp ht), fun _ => rfl⟩, ?_,
      fun _ => ⟨timeoutMessage, rfl⟩⟩
    intro h
    exact absurd h (by simp)

theorem error_flag_selects_result_witness :
    ∃ resp, responsesOf (on_message demoReg 5 0 demoMsg ⟨0⟩ 1).events = [resp] ∧
      (resp.error = 0 ∨ resp.error = 1) ∧
      (resp.error = 1 ↔
        (5 < 0 ∨ ∃ ex, worker_process demoReg demoMsg = Except.error ex)) ∧
      (resp.error = 0 →
        ∃ v, worker_process demoReg demoMsg = Except.ok v ∧ resp.result = v) ∧
      (resp.error = 1 → ∃ s, resp.result = Json.str s) :=
  error_flag_selects_result demoReg 5 0 demoMsg ⟨0⟩ 1 (Json.num 1) rfl

/-- Claim C8: the worker executor looks the operation name up in the
registered conversion-library surface and invokes it with the parameter
mapping applied as named arguments, returning its result value or
propagating any failure raised during lookup or execution; unknown operation
names and missing envelope keys surface as errors (a `Failed` outcome) with
a non-empty diagnostic. -/
theorem worker_executor_contract (fc : Registry) (msg : List (String × Json)) :
    (∀ name ps op, dictGet "method" msg = some (Json.str name) →
      dictGet "params" msg = some (Json.obj ps) → fc name = some op →
      worker_process fc msg = op ps) ∧
    (∀ name, dictGet "method" msg = some (Json.str name) → fc name = none →
      ∃ d, worker_process fc msg = Except.error d ∧ d ≠ "") ∧
    (dictGet "method" msg = none →
      ∃ d, worker_process fc msg = Except.error d ∧ d ≠ "") := by
  refine ⟨?_, ?_, ?_⟩
  · intro name ps op hm hp hop
    simp only [worker_process, hm, hop, hp]
  · intro name hm hnone
    refine ⟨"AttributeError: module format_converter has no attribute " ++ name,
      ?_, append_ne_empty_of_left _ _ (by decide)⟩
    simp only [worker_process, hm, hnone]
  · intro hm
    refine ⟨"KeyError: method", ?_, by decide⟩
    simp only [worker_process, hm]

theorem worker_executor_contract_witness :
    worker_process demoReg demoMsg = Except.ok (Json.str "converted") ∧
    ∃ d, worker_process (fun _ => none) demoMsg = Except.error d ∧ d ≠ "" :=
  ⟨(worker_executor_contract demoReg demoMsg).1 "convert" []
      (fun _ => Except.ok (Json.str "converted")) rfl rfl rfl,
   (worker_executor_contract (fun _ => none) demoMsg).2.1 "convert" rfl rfl⟩

/-- Claim C9: each dispatcher owns its own pool; delivering a message to
connection `i` — whatever the outcome, including a timeout that recycles
the pool of connection `i` — leaves the state of every other connection
(and hence its pool) exactly as it was. -/
theorem dispatcher_pools_isolated
    (fc : Registry) (timeout elapsed : Nat) (msg : List (String × Json))
    (i j : Nat) (s : Sys) (hij : j ≠ i) :
    (Sys.handle fc timeout elapsed msg i s).sys.conns[j]? = s.conns[j]? := by
  unfold Sys.handle
  cases hc : s.conns[i]? with
  | none => rfl
  | some c =>
    exact List.getElem?_set_ne (fun h => hij h.symm)

theorem dispatcher_pools_isolated_witness :
    (Sys.handle demoReg 5 9 demoMsg 0 ⟨2, [⟨0⟩, ⟨1⟩]⟩).sys.conns[1]? =
      (⟨2, [⟨0⟩, ⟨1⟩]⟩ : Sys).conns[1]? :=
  dispatcher_pools_isolated demoReg 5 9 demoMsg 0 1 ⟨2, [⟨0⟩, ⟨1⟩]⟩ (by decide)

/-- Claim C10: for every incoming message lacking an `"id"` key, the handler
raises an uncaught `KeyError` while building the response on line 69 — after
the outcome has been classified and, on timeout, after the pool has already
been recycled — and no response is emitted for that request. -/
theorem missing_id_raises_keyerror
    (fc : Registry) (timeout elapsed : Nat) (msg : List (String × Json))
    (c : Conn) (alloc : Nat)
    (hid : dictGet "id" msg = none) :
    (on_message fc timeout elapsed msg c alloc).raisedKeyError = true ∧
    responsesOf (on_message fc timeout elapsed msg c alloc).events = [] ∧
    (timeout < elapsed →
      (on_message fc timeout elapsed msg c alloc).conn.pool = alloc ∧
      (on_message fc timeout elapsed msg c alloc).events =
        [Event.terminated c.pool, Event.created alloc]) := by
  by_cases ht : elapsed ≤ timeout
  · cases hw : worker_process fc msg with
    | ok v =>
      rw [on_message_ok fc timeout elapsed msg c alloc v ht hw,
        sendResponse_of_no_id _ _ _ _ _ _ hid]
      exact ⟨rfl, rfl, fun h => absurd h (Nat.not_lt.mpr ht)⟩
    | error ex =>
      rw [on_message_err fc timeout elapsed msg c alloc ex ht hw,
        sendResponse_of_no_id _ _ _ _ _ _ hid]
      exact ⟨rfl, rfl, fun h => absurd h (Nat.not_lt.mpr ht)⟩
  · rw [on_message_timeout fc timeout elapsed msg c alloc ht,
      sendResponse_of_no_id _ _ _ _ _ _ hid]
    exact ⟨rfl, rfl, fun _ => ⟨rfl, rfl⟩⟩

theorem missing_id_raises_keyerror_witness :
    (on_message demoReg 5 9 demoMsgNoId ⟨0⟩ 1).raisedKeyError = true ∧
    responsesOf (on_message demoReg 5 9 demoMsgNoId ⟨0⟩ 1).events = [] ∧
    (5 < 9 →
      (on_message demoReg 5 9 demoMsgNoId ⟨0⟩ 1).conn.pool = 1 ∧
      (on_message demoReg 5 9 demoMsgNoId ⟨0⟩ 1).events =
        [Event.terminated (Conn.pool ⟨0⟩), Event.created 1]) :=
  missing_id_raises_keyerror demoReg 5 9 demoMsgNoId ⟨0⟩ 1 rfl

end ImoleculeServer
